import Mathlib

/-
Verification of the Smart-Life-Monitor edge platform core:
the vital-reading domain entity (validation and classification rules,
src/vital_monitoring/domain/entities/vitals_reading.py) and the in-memory
repository (src/vital_monitoring/infrastructure/persistence/
in_memory_vitals_repository.py).

Modelling conventions:
- Python float weights are modelled as rationals (all thresholds in the code
  are exact decimals, so order comparisons agree with IEEE doubles there).
- Python int heart rates are modelled as integers.
- datetime timestamps are modelled as naturals (datetime is totally ordered;
  only order matters to the code under verification).
- Python dicts (insertion-ordered, unique keys, in-place value update) are
  modelled as association lists: update keeps the key position, a new key is
  appended at the end; values() is the list of second components.
- list.sort(key=lambda r: r.timestamp, reverse=True) is Timsort, a stable
  sort placed in descending key order; it is modelled by a stable insertion
  sort with a strict descending comparison (extensionally the unique stable
  descending sort by key).
- async methods are sequential here; each repository method is embedded in
  state-threading style, returning its result together with the repository
  state after the call.
-/

namespace SmartLife

/-- Heart rate classification, from class HeartRateStatus(Enum). -/
inductive HeartRateStatus where
  | LOW
  | NORMAL
  | HIGH
deriving DecidableEq, Repr

/-- Weight alert classification, from class WeightAlert(Enum). -/
inductive WeightAlert where
  | NORMAL
  | OVERWEIGHT
deriving DecidableEq, Repr

/-- The VitalReading dataclass. The two classification fields are Optional
in the source (None until __post_init__ fills them), hence Option here. -/
structure VitalReading where
  device_id : String
  weight_kg : ℚ
  heart_rate_bpm : ℤ
  reading_id : String
  timestamp : ℕ
  recorded_at : ℕ
  heart_rate_status : Option HeartRateStatus
  weight_alert : Option WeightAlert
deriving DecidableEq, Repr

/-- VitalReading._classify_heart_rate: Low below 60, Normal in 60..100,
High above 100 (mirrors the if / elif 60 <= hr <= 100 / else chain). -/
def classify_heart_rate (hr : ℤ) : HeartRateStatus :=
  if hr < 60 then HeartRateStatus.LOW
  else if 60 ≤ hr ∧ hr ≤ 100 then HeartRateStatus.NORMAL
  else HeartRateStatus.HIGH

/-- VitalReading._classify_weight: Overweight above 80 kg, else Normal. -/
def classify_weight (w : ℚ) : WeightAlert :=
  if w > 80 then WeightAlert.OVERWEIGHT
  else WeightAlert.NORMAL

/-- Python str.strip(): drop leading and trailing whitespace characters
(modelled with Char.isWhitespace, covering the ASCII whitespace Python
strips; the code only compares the result against the empty string). -/
def pyStrip (s : String) : String :=
  ⟨((s.data.dropWhile Char.isWhitespace).reverse.dropWhile
      Char.isWhitespace).reverse⟩

/-- VitalReading.__post_init__: the validations in source order
(_validate_device_id, _validate_weight, _validate_heart_rate), then the two
classifications. Construction either yields the fully classified reading or
the ValueError message of the first violated rule. -/
def mkVitalReading (device_id : String) (weight_kg : ℚ) (heart_rate_bpm : ℤ)
    (reading_id : String) (timestamp recorded_at : ℕ) :
    Except String VitalReading :=
  if device_id = "" ∨ pyStrip device_id = "" then
    Except.error "Device ID cannot be empty"
  else if weight_kg < 0 then
    Except.error "Weight cannot be negative"
  else if weight_kg > 300 then
    Except.error "Weight exceeds maximum realistic value (300kg)"
  else if heart_rate_bpm < 30 then
    Except.error "Heart rate too low (minimum: 30 BPM)"
  else if heart_rate_bpm > 220 then
    Except.error "Heart rate too high (maximum: 220 BPM)"
  else
    Except.ok
      { device_id := device_id
        weight_kg := weight_kg
        heart_rate_bpm := heart_rate_bpm
        reading_id := reading_id
        timestamp := timestamp
        recorded_at := recorded_at
        heart_rate_status := some (classify_heart_rate heart_rate_bpm)
        weight_alert := some (classify_weight weight_kg) }

/-- VitalReading.is_critical: heart_rate_status in [LOW, HIGH]
or weight_alert == OVERWEIGHT. -/
def VitalReading.is_critical (r : VitalReading) : Bool :=
  decide (r.heart_rate_status = some HeartRateStatus.LOW ∨
          r.heart_rate_status = some HeartRateStatus.HIGH) ||
  decide (r.weight_alert = some WeightAlert.OVERWEIGHT)

/-- VitalReading.requires_medical_attention: heart_rate_bpm < 40
or heart_rate_bpm > 120. -/
def VitalReading.requires_medical_attention (r : VitalReading) : Bool :=
  decide (r.heart_rate_bpm < 40) || decide (r.heart_rate_bpm > 120)

/-- Python dict lookup (d.get(k) / d[k] with "k in d" guard): the value at
the key, if present. -/
def dictGet {α : Type} : List (String × α) → String → Option α
  | [], _ => none
  | (k', v) :: rest, k => if k' = k then some v else dictGet rest k

/-- Python dict assignment d[k] = v: replace the value in place when the key
is present (keeping its position), otherwise append the new key at the end
(Python dicts preserve insertion order). -/
def dictInsert {α : Type} : List (String × α) → String → α → List (String × α)
  | [], k, v => [(k, v)]
  | (k', v') :: rest, k, v =>
      if k' = k then (k, v) :: rest else (k', v') :: dictInsert rest k v

/-- Python d.values(): values in insertion order. -/
def dictValues {α : Type} (d : List (String × α)) : List α :=
  d.map Prod.snd

/-- InMemoryVitalRepository state: the primary reading map _readings
(reading_id to reading) and per-device index _device_readings
(device_id to list of reading ids). -/
structure RepoState where
  readings : List (String × VitalReading)
  device_readings : List (String × List String)
deriving DecidableEq, Repr

/-- InMemoryVitalRepository.__init__: both dicts empty. -/
def emptyRepo : RepoState := { readings := [], device_readings := [] }

/-- One step of the stable descending insertion modelling Timsort with
reverse=True: the new element moves left past exactly the elements with a
strictly smaller timestamp, so equal timestamps keep their original order. -/
def insertByTsDesc (x : VitalReading) : List VitalReading → List VitalReading
  | [] => [x]
  | y :: ys =>
      if y.timestamp < x.timestamp then x :: y :: ys
      else y :: insertByTsDesc x ys

/-- readings.sort(key=lambda r: r.timestamp, reverse=True): the stable
descending sort by timestamp. -/
def pySortByTimestampDesc (l : List VitalReading) : List VitalReading :=
  l.foldl (fun acc x => insertByTsDesc x acc) []

/-- InMemoryVitalRepository.save: store the reading under its id, create the
device index if absent, append the reading id to it; returns the reading and
the updated state. -/
def saveS (st : RepoState) (r : VitalReading) : VitalReading × RepoState :=
  let readings := dictInsert st.readings r.reading_id r
  let ids := (dictGet st.device_readings r.device_id).getD []
  let device_readings :=
    dictInsert st.device_readings r.device_id (ids ++ [r.reading_id])
  (r, { readings := readings, device_readings := device_readings })

/-- The state after save. -/
def save (st : RepoState) (r : VitalReading) : RepoState := (saveS st r).2

/-- InMemoryVitalRepository.find_by_id: self._readings.get(reading_id). -/
def find_by_idS (st : RepoState) (reading_id : String) :
    Option VitalReading × RepoState :=
  (dictGet st.readings reading_id, st)

def find_by_id (st : RepoState) (reading_id : String) : Option VitalReading :=
  (find_by_idS st reading_id).1

/-- InMemoryVitalRepository.find_by_device: empty when the device has no
index entry; otherwise materialize the readings of the device's id list
(skipping ids absent from the primary map), sort by timestamp descending
(stable), and truncate to limit. -/
def find_by_deviceS (st : RepoState) (device_id : String) (limit : ℕ) :
    List VitalReading × RepoState :=
  match dictGet st.device_readings device_id with
  | none => ([], st)
  | some reading_ids =>
      let readings := reading_ids.filterMap (fun rid => dictGet st.readings rid)
      let readings := pySortByTimestampDesc readings
      (readings.take limit, st)

def find_by_device (st : RepoState) (device_id : String) (limit : ℕ) :
    List VitalReading :=
  (find_by_deviceS st device_id limit).1

/-- InMemoryVitalRepository.find_latest_by_device: readings[0] of
find_by_device(device_id, limit=1) when that list is non-empty, else None. -/
def find_latest_by_deviceS (st : RepoState) (device_id : String) :
    Option VitalReading × RepoState :=
  match find_by_deviceS st device_id 1 with
  | (readings, st1) =>
      (match readings with
       | [] => none
       | r :: _ => some r, st1)

def find_latest_by_device (st : RepoState) (device_id : String) :
    Option VitalReading :=
  (find_latest_by_deviceS st device_id).1

/-- InMemoryVitalRepository.count_by_device: length of the device's id list,
0 when the device has no index entry. -/
def count_by_deviceS (st : RepoState) (device_id : String) : ℕ × RepoState :=
  match dictGet st.device_readings device_id with
  | none => (0, st)
  | some ids => (ids.length, st)

def count_by_device (st : RepoState) (device_id : String) : ℕ :=
  (count_by_deviceS st device_id).1

/-- InMemoryVitalRepository.find_critical_readings. The Python guard is
"if device_id:", which is false both for None and for the empty string, so
an empty-string device falls through to the all-readings scan. With a
(truthy) device the source takes find_by_device(device_id, limit=1000);
without, it takes list(self._readings.values()). Then it filters to
is_critical and sorts by timestamp descending (stable). -/
def find_critical_readingsS (st : RepoState) (device_id : Option String) :
    List VitalReading × RepoState :=
  match device_id with
  | some d =>
      if d = "" then
        let readings := dictValues st.readings
        (pySortByTimestampDesc (readings.filter VitalReading.is_critical), st)
      else
        match find_by_deviceS st d 1000 with
        | (readings, st1) =>
            (pySortByTimestampDesc (readings.filter VitalReading.is_critical),
             st1)
  | none =>
      let readings := dictValues st.readings
      (pySortByTimestampDesc (readings.filter VitalReading.is_critical), st)

def find_critical_readings (st : RepoState) (device_id : Option String) :
    List VitalReading :=
  (find_critical_readingsS st device_id).1

/-- Sorted by timestamp, most recent first. -/
def tsSortedDesc (l : List VitalReading) : Prop :=
  l.Pairwise (fun a b => b.timestamp ≤ a.timestamp)

/-- Strict precedence on position-tagged readings: earlier in the output iff
strictly larger timestamp, or equal timestamp and earlier original
position. -/
def pairBefore (x y : ℕ × VitalReading) : Bool :=
  decide (y.2.timestamp < x.2.timestamp) ||
  (decide (x.2.timestamp = y.2.timestamp) && decide (x.1 < y.1))

def insertLex (x : ℕ × VitalReading) :
    List (ℕ × VitalReading) → List (ℕ × VitalReading)
  | [] => [x]
  | y :: ys => if pairBefore x y then x :: y :: ys else y :: insertLex x ys

def sortLex (l : List (ℕ × VitalReading)) : List (ℕ × VitalReading) :=
  l.foldl (fun acc x => insertLex x acc) []

/-- Claim-side characterization of a stable descending sort by timestamp:
tag each reading with its original position, order by (timestamp descending,
position ascending), and forget the positions. Ties in timestamp therefore
keep their original (insertion) order. -/
def stableSortByTsDesc (l : List VitalReading) : List VitalReading :=
  (sortLex l.enum).map Prod.snd

/-- Claim-side materialization: the readings reachable through the device's
id list (empty when the device has no index entry). -/
def deviceReadingsOf (st : RepoState) (device_id : String) :
    List VitalReading :=
  ((dictGet st.device_readings device_id).getD []).filterMap
    (fun rid => dictGet st.readings rid)

/-- A store state is well formed when every id reachable through a device's
index resolves (if at all) to a reading carrying that device's id. Every
state the running program reaches is well formed: readings enter the store
only through save, under a reading_id freshly generated at construction
(uuid4), as wf_empty and wf_save below establish. -/
def WellFormed (st : RepoState) : Prop :=
  ∀ dev ids, dictGet st.device_readings dev = some ids →
    ∀ rid ∈ ids, ∀ r, dictGet st.readings rid = some r → r.device_id = dev

/-- Example reading: normal on all counts. -/
def rEx : VitalReading :=
  { device_id := "DEV-1"
    weight_kg := 70
    heart_rate_bpm := 72
    reading_id := "R1"
    timestamp := 5
    recorded_at := 5
    heart_rate_status := some HeartRateStatus.NORMAL
    weight_alert := some WeightAlert.NORMAL }

/-- Example reading: high heart rate and overweight, on another device. -/
def rEx2 : VitalReading :=
  { device_id := "DEV-2"
    weight_kg := 90
    heart_rate_bpm := 130
    reading_id := "R2"
    timestamp := 7
    recorded_at := 7
    heart_rate_status := some HeartRateStatus.HIGH
    weight_alert := some WeightAlert.OVERWEIGHT }

/-- Example reading: low heart rate, same device as rEx. -/
def rEx3 : VitalReading :=
  { device_id := "DEV-1"
    weight_kg := 60
    heart_rate_bpm := 55
    reading_id := "R3"
    timestamp := 9
    recorded_at := 9
    heart_rate_status := some HeartRateStatus.LOW
    weight_alert := some WeightAlert.NORMAL }

/-- Example store holding the three example readings. -/
def stEx : RepoState := save (save (save emptyRepo rEx) rEx2) rEx3

/- ------------------------------------------------------------------ -/
/- Helper lemmas about classification and construction.               -/
/- ------------------------------------------------------------------ -/

theorem pyStrip_empty : pyStrip "" = "" := by decide

theorem classify_heart_rate_eq_low (hr : ℤ) :
    classify_heart_rate hr = HeartRateStatus.LOW ↔ hr < 60 := by
  unfold classify_heart_rate
  split_ifs with h1 h2 <;> simp_all

theorem classify_heart_rate_eq_high (hr : ℤ) :
    classify_heart_rate hr = HeartRateStatus.HIGH ↔ 100 < hr := by
  unfold classify_heart_rate
  split_ifs with h1 h2 <;> simp_all
  all_goals omega

theorem classify_heart_rate_eq_normal (hr : ℤ) :
    classify_heart_rate hr = HeartRateStatus.NORMAL ↔
      60 ≤ hr ∧ hr ≤ 100 := by
  unfold classify_heart_rate
  split_ifs with h1 h2 <;> simp_all

theorem classify_weight_eq_over (w : ℚ) :
    classify_weight w = WeightAlert.OVERWEIGHT ↔ 80 < w := by
  unfold classify_weight
  split_ifs with h <;> simp_all

theorem classify_weight_eq_normal (w : ℚ) :
    classify_weight w = WeightAlert.NORMAL ↔ w ≤ 80 := by
  unfold classify_weight
  split_ifs with h <;> simp_all [not_le, not_lt]

/-- Successful construction pins down every field of the reading and the
validity of the raw inputs. -/
theorem mkVitalReading_ok (d : String) (w : ℚ) (hr : ℤ) (rid : String)
    (ts rec : ℕ) (r : VitalReading)
    (h : mkVitalReading d w hr rid ts rec = Except.ok r) :
    r = { device_id := d, weight_kg := w, heart_rate_bpm := hr,
          reading_id := rid, timestamp := ts, recorded_at := rec,
          heart_rate_status := some (classify_heart_rate hr),
          weight_alert := some (classify_weight w) } ∧
    pyStrip d ≠ "" ∧ 0 ≤ w ∧ w ≤ 300 ∧ 30 ≤ hr ∧ hr ≤ 220 := by
  unfold mkVitalReading at h
  split_ifs at h with h1 h2 h3 h4 h5
  rw [Except.ok.injEq] at h
  push_neg at h1
  exact ⟨h.symm, h1.2, not_lt.mp h2, not_lt.mp h3, not_lt.mp h4,
         not_lt.mp h5⟩

/- ------------------------------------------------------------------ -/
/- Claims about the entity.                                           -/
/- ------------------------------------------------------------------ -/

/-- C1: for every successfully constructed VitalReading, the derived
classifications are exact functions of the raw inputs: heart_rate_status is
Low iff heart_rate_bpm < 60, High iff heart_rate_bpm > 100, Normal exactly
on 60..100; weight_alert is Overweight iff weight_kg > 80, else Normal (so
heart_rate_bpm = 60 and = 100 give Normal, and weight_kg = 80 gives
Normal). -/
theorem classification_exact (d : String) (w : ℚ) (hr : ℤ)
    (rid : String) (ts rec : ℕ) (r : VitalReading)
    (h : mkVitalReading d w hr rid ts rec = Except.ok r) :
    (r.heart_rate_status = some HeartRateStatus.LOW ↔
      r.heart_rate_bpm < 60) ∧
    (r.heart_rate_status = some HeartRateStatus.HIGH ↔
      100 < r.heart_rate_bpm) ∧
    (r.heart_rate_status = some HeartRateStatus.NORMAL ↔
      60 ≤ r.heart_rate_bpm ∧ r.heart_rate_bpm ≤ 100) ∧
    (r.weight_alert = some WeightAlert.OVERWEIGHT ↔ 80 < r.weight_kg) ∧
    (r.weight_alert = some WeightAlert.NORMAL ↔ r.weight_kg ≤ 80) := by
  obtain ⟨hre, -, -, -, -, -⟩ := mkVitalReading_ok d w hr rid ts rec r h
  subst hre
  simp [classify_heart_rate_eq_low, classify_heart_rate_eq_high,
        classify_heart_rate_eq_normal, classify_weight_eq_over,
        classify_weight_eq_normal]

/-- Witness for C1: the concrete reading rEx arises from construction and
satisfies the classification equivalences. -/
theorem classification_exact_witness :
    (rEx.heart_rate_status = some HeartRateStatus.LOW ↔
      rEx.heart_rate_bpm < 60) ∧
    (rEx.heart_rate_status = some HeartRateStatus.HIGH ↔
      100 < rEx.heart_rate_bpm) ∧
    (rEx.heart_rate_status = some HeartRateStatus.NORMAL ↔
      60 ≤ rEx.heart_rate_bpm ∧ rEx.heart_rate_bpm ≤ 100) ∧
    (rEx.weight_alert = some WeightAlert.OVERWEIGHT ↔ 80 < rEx.weight_kg) ∧
    (rEx.weight_alert = some WeightAlert.NORMAL ↔ rEx.weight_kg ≤ 80) :=
  classification_exact "DEV-1" 70 72 "R1" 5 5 rEx (by rfl)

/-- C2: for every successfully constructed VitalReading, is_critical holds
iff heart_rate_status is Low or High or weight_alert is Overweight;
equivalently, iff heart_rate_bpm < 60 or heart_rate_bpm > 100 or
weight_kg > 80. -/
theorem is_critical_iff (d : String) (w : ℚ) (hr : ℤ)
    (rid : String) (ts rec : ℕ) (r : VitalReading)
    (h : mkVitalReading d w hr rid ts rec = Except.ok r) :
    (r.is_critical = true ↔
      (r.heart_rate_status = some HeartRateStatus.LOW ∨
       r.heart_rate_status = some HeartRateStatus.HIGH ∨
       r.weight_alert = some WeightAlert.OVERWEIGHT)) ∧
    (r.is_critical = true ↔
      (r.heart_rate_bpm < 60 ∨ 100 < r.heart_rate_bpm ∨
       80 < r.weight_kg)) := by
  obtain ⟨hre, -, -, -, -, -⟩ := mkVitalReading_ok d w hr rid ts rec r h
  subst hre
  constructor
  · simp [VitalReading.is_critical, or_assoc]
  · simp [VitalReading.is_critical, or_assoc, classify_heart_rate_eq_low,
          classify_heart_rate_eq_high, classify_weight_eq_over]

/-- Witness for C2 at the concrete critical reading rEx2. -/
theorem is_critical_iff_witness :
    (rEx2.is_critical = true ↔
      (rEx2.heart_rate_status = some HeartRateStatus.LOW ∨
       rEx2.heart_rate_status = some HeartRateStatus.HIGH ∨
       rEx2.weight_alert = some WeightAlert.OVERWEIGHT)) ∧
    (rEx2.is_critical = true ↔
      (rEx2.heart_rate_bpm < 60 ∨ 100 < rEx2.heart_rate_bpm ∨
       80 < rEx2.weight_kg)) :=
  is_critical_iff "DEV-2" 90 130 "R2" 7 7 rEx2 (by rfl)

/-- C3: construction either yields a fully classified reading or fails with
the message of the first violated rule, the rules checked in the order:
device id non-empty after stripping, weight non-negative, weight at most
300, heart rate at least 30, heart rate at most 220; every input passing
all five rules constructs successfully. -/
theorem validation_first_rule (d : String) (w : ℚ) (hr : ℤ)
    (rid : String) (ts rec : ℕ) :
    (pyStrip d = "" →
      mkVitalReading d w hr rid ts rec =
        Except.error "Device ID cannot be empty") ∧
    (pyStrip d ≠ "" → w < 0 →
      mkVitalReading d w hr rid ts rec =
        Except.error "Weight cannot be negative") ∧
    (pyStrip d ≠ "" → 0 ≤ w → 300 < w →
      mkVitalReading d w hr rid ts rec =
        Except.error "Weight exceeds maximum realistic value (300kg)") ∧
    (pyStrip d ≠ "" → 0 ≤ w → w ≤ 300 → hr < 30 →
      mkVitalReading d w hr rid ts rec =
        Except.error "Heart rate too low (minimum: 30 BPM)") ∧
    (pyStrip d ≠ "" → 0 ≤ w → w ≤ 300 → 30 ≤ hr → 220 < hr →
      mkVitalReading d w hr rid ts rec =
        Except.error "Heart rate too high (maximum: 220 BPM)") ∧
    (pyStrip d ≠ "" → 0 ≤ w → w ≤ 300 → 30 ≤ hr → hr ≤ 220 →
      mkVitalReading d w hr rid ts rec = Except.ok
        { device_id := d, weight_kg := w, heart_rate_bpm := hr,
          reading_id := rid, timestamp := ts, recorded_at := rec,
          heart_rate_status := some (classify_heart_rate hr),
          weight_alert := some (classify_weight w) }) := by
  have hde : pyStrip d ≠ "" → ¬(d = "" ∨ pyStrip d = "") := by
    intro hne hor
    rcases hor with h0 | h0
    · exact hne (h0 ▸ pyStrip_empty)
    · exact hne h0
  refine ⟨?_, ?_, ?_, ?_, ?_, ?_⟩
  · intro h1
    unfold mkVitalReading
    rw [if_pos (Or.inr h1)]
  · intro h1 h2
    unfold mkVitalReading
    rw [if_neg (hde h1), if_pos h2]
  · intro h1 h2 h3
    unfold mkVitalReading
    rw [if_neg (hde h1), if_neg (not_lt.mpr h2), if_pos h3]
  · intro h1 h2 h3 h4
    unfold mkVitalReading
    rw [if_neg (hde h1), if_neg (not_lt.mpr h2), if_neg (not_lt.mpr h3),
        if_pos h4]
  · intro h1 h2 h3 h4 h5
    unfold mkVitalReading
    rw [if_neg (hde h1), if_neg (not_lt.mpr h2), if_neg (not_lt.mpr h3),
        if_neg (not_lt.mpr h4), if_pos h5]
  · intro h1 h2 h3 h4 h5
    unfold mkVitalReading
    rw [if_neg (hde h1), if_neg (not_lt.mpr h2), if_neg (not_lt.mpr h3),
        if_neg (not_lt.mpr h4), if_neg (not_lt.mpr h5)]

/-- Witness for C3: a stripped-empty device id, a negative weight, an
excessive heart rate, and an all-valid input, each at a concrete call. -/
theorem validation_first_rule_witness :
    mkVitalReading " " 70 72 "R1" 5 5 =
      Except.error "Device ID cannot be empty" ∧
    mkVitalReading "DEV-1" (-1) 72 "R1" 5 5 =
      Except.error "Weight cannot be negative" ∧
    mkVitalReading "DEV-1" 70 250 "R1" 5 5 =
      Except.error "Heart rate too high (maximum: 220 BPM)" ∧
    mkVitalReading "DEV-1" 70 72 "R1" 5 5 = Except.ok
      { device_id := "DEV-1", weight_kg := 70, heart_rate_bpm := 72,
        reading_id := "R1", timestamp := 5, recorded_at := 5,
        heart_rate_status := some (classify_heart_rate 72),
        weight_alert := some (classify_weight 70) } :=
  ⟨(validation_first_rule " " 70 72 "R1" 5 5).1 (by decide),
   (validation_first_rule "DEV-1" (-1) 72 "R1" 5 5).2.1 (by decide)
     (by decide),
   (validation_first_rule "DEV-1" 70 250 "R1" 5 5).2.2.2.2.1 (by decide)
     (by decide) (by decide) (by decide) (by decide),
   (validation_first_rule "DEV-1" 70 72 "R1" 5 5).2.2.2.2.2 (by decide)
     (by decide) (by decide) (by decide) (by decide)⟩

/-- C5: for every successfully constructed VitalReading (whose heart rate
therefore lies in 30..220), requires_medical_attention holds iff the heart
rate lies in 30..39 or in 121..220, and fails on all of 40..120. -/
theorem requires_attention_iff (d : String) (w : ℚ) (hr : ℤ)
    (rid : String) (ts rec : ℕ) (r : VitalReading)
    (h : mkVitalReading d w hr rid ts rec = Except.ok r) :
    (r.requires_medical_attention = true ↔
      ((30 ≤ r.heart_rate_bpm ∧ r.heart_rate_bpm ≤ 39) ∨
       (121 ≤ r.heart_rate_bpm ∧ r.heart_rate_bpm ≤ 220))) ∧
    (40 ≤ r.heart_rate_bpm ∧ r.heart_rate_bpm ≤ 120 →
      r.requires_medical_attention = false) := by
  obtain ⟨hre, -, -, -, h30, h220⟩ := mkVitalReading_ok d w hr rid ts rec r h
  subst hre
  simp only [VitalReading.requires_medical_attention]
  simp only [Bool.or_eq_true, Bool.or_eq_false_iff,
             decide_eq_true_eq, decide_eq_false_iff_not]
  omega

/-- Witness for C5 at the concrete critical reading rEx2. -/
theorem requires_attention_iff_witness :
    (rEx2.requires_medical_attention = true ↔
      ((30 ≤ rEx2.heart_rate_bpm ∧ rEx2.heart_rate_bpm ≤ 39) ∨
       (121 ≤ rEx2.heart_rate_bpm ∧ rEx2.heart_rate_bpm ≤ 220))) ∧
    (40 ≤ rEx2.heart_rate_bpm ∧ rEx2.heart_rate_bpm ≤ 120 →
      rEx2.requires_medical_attention = false) :=
  requires_attention_iff "DEV-2" 90 130 "R2" 7 7 rEx2 (by rfl)

/-- C10: for every successfully constructed VitalReading,
requires_medical_attention implies is_critical: a heart rate below 40 is
classified Low and one above 120 is classified High. -/
theorem attention_implies_critical (d : String) (w : ℚ) (hr : ℤ)
    (rid : String) (ts rec : ℕ) (r : VitalReading)
    (h : mkVitalReading d w hr rid ts rec = Except.ok r)
    (hm : r.requires_medical_attention = true) :
    r.is_critical = true := by
  obtain ⟨hre, -, -, -, -, -⟩ := mkVitalReading_ok d w hr rid ts rec r h
  subst hre
  simp only [VitalReading.requires_medical_attention, Bool.or_eq_true,
             decide_eq_true_eq] at hm
  simp only [VitalReading.is_critical, Bool.or_eq_true, decide_eq_true_eq,
             Option.some.injEq]
  rcases hm with hlt | hgt
  · exact Or.inl (Or.inl ((classify_heart_rate_eq_low hr).mpr (by omega)))
  · exact Or.inl (Or.inr ((classify_heart_rate_eq_high hr).mpr (by omega)))

/-- Witness for C10 at the concrete critical reading rEx2. -/
theorem attention_implies_critical_witness : rEx2.is_critical = true :=
  attention_implies_critical "DEV-2" 90 130 "R2" 7 7 rEx2 (by rfl) (by rfl)

/- ------------------------------------------------------------------ -/
/- Helper lemmas about the dict model and the repository.             -/
/- ------------------------------------------------------------------ -/

theorem dictGet_dictInsert_self {α : Type} (l : List (String × α))
    (k : String) (v : α) : dictGet (dictInsert l k v) k = some v := by
  induction l with
  | nil => simp [dictInsert, dictGet]
  | cons p rest ih =>
      obtain ⟨k0, v0⟩ := p
      by_cases hk : k0 = k
      · subst hk
        simp [dictInsert, dictGet]
      · simp [dictInsert, dictGet, hk, ih]

theorem dictGet_dictInsert_ne {α : Type} (l : List (String × α))
    (k k' : String) (v : α) (h : k' ≠ k) :
    dictGet (dictInsert l k v) k' = dictGet l k' := by
  induction l with
  | nil =>
      simp only [dictInsert, dictGet]
      rw [if_neg (Ne.symm h)]
  | cons p rest ih =>
      obtain ⟨k0, v0⟩ := p
      by_cases hk : k0 = k
      · subst hk
        simp only [dictInsert, if_pos rfl, dictGet]
        rw [if_neg (Ne.symm h), if_neg (Ne.symm h)]
      · simp only [dictInsert, if_neg hk, dictGet]
        by_cases hk' : k0 = k'
        · rw [if_pos hk', if_pos hk']
        · rw [if_neg hk', if_neg hk', ih]

/-- find_by_device reads but never writes: the stateful form returns the
untouched state. -/
theorem find_by_deviceS_eq (st : RepoState) (d : String) (limit : ℕ) :
    find_by_deviceS st d limit = (find_by_device st d limit, st) := by
  cases h : dictGet st.device_readings d <;>
    simp [find_by_device, find_by_deviceS, h]

/-- find_critical_readings reads but never writes. -/
theorem find_critical_readingsS_eq (st : RepoState) (dopt : Option String) :
    find_critical_readingsS st dopt =
      (find_critical_readings st dopt, st) := by
  cases dopt with
  | none => rfl
  | some d =>
      by_cases hd : d = ""
      · simp [find_critical_readings, find_critical_readingsS, hd]
      · simp [find_critical_readings, find_critical_readingsS, hd,
              find_by_deviceS_eq st d 1000]

/- ------------------------------------------------------------------ -/
/- Claims about the repository: save, latest, purity of queries.      -/
/- ------------------------------------------------------------------ -/

/-- C9: every query operation of the store (find_by_id, find_by_device,
find_latest_by_device, count_by_device, find_critical_readings) leaves the
store state — the primary reading map and every device index list —
unchanged, for every state and every argument. -/
theorem queries_leave_state_unchanged (st : RepoState) (rid d : String)
    (limit : ℕ) (dopt : Option String) :
    (find_by_idS st rid).2 = st ∧
    (find_by_deviceS st d limit).2 = st ∧
    (find_latest_by_deviceS st d).2 = st ∧
    (count_by_deviceS st d).2 = st ∧
    (find_critical_readingsS st dopt).2 = st := by
  refine ⟨rfl, ?_, ?_, ?_, ?_⟩
  · rw [find_by_deviceS_eq]
  · unfold find_latest_by_deviceS
    rw [find_by_deviceS_eq]
  · unfold count_by_deviceS
    cases h : dictGet st.device_readings d <;> simp [h]
  · rw [find_critical_readingsS_eq]

/-- C8: find_latest_by_device is the head of find_by_device with limit 1:
the first element when that sequence is non-empty, absent when empty. -/
theorem latest_is_head_of_find_by_device (st : RepoState) (d : String) :
    (find_by_device st d 1 = [] → find_latest_by_device st d = none) ∧
    (∀ r rest, find_by_device st d 1 = r :: rest →
      find_latest_by_device st d = some r) := by
  have hl : find_latest_by_device st d =
      match find_by_device st d 1 with
      | [] => none
      | r :: _ => some r := by
    unfold find_latest_by_device find_latest_by_deviceS
    rw [find_by_deviceS_eq]
  constructor
  · intro h
    rw [hl, h]
  · intro r rest h
    rw [hl, h]

/-- Witness for C8: on the example store, an unknown device yields none and
device DEV-2 yields its single (hence most recent) reading. -/
theorem latest_is_head_witness :
    find_latest_by_device stEx "NODEV" = none ∧
    find_latest_by_device stEx "DEV-2" = some rEx2 :=
  ⟨(latest_is_head_of_find_by_device stEx "NODEV").1 (by rfl),
   (latest_is_head_of_find_by_device stEx "DEV-2").2 rEx2 [] (by rfl)⟩

/-- C6: after save(r), find_by_id(r.reading_id) returns r, r.reading_id has
been appended to the index list of r.device_id (created if absent) so
count_by_device(r.device_id) grows by exactly one, and the index lists of
all other devices and the map entries of all other reading ids are
unchanged. -/
theorem save_effects (st : RepoState) (r : VitalReading) :
    find_by_id (save st r) r.reading_id = some r ∧
    dictGet (save st r).device_readings r.device_id =
      some ((dictGet st.device_readings r.device_id).getD [] ++
            [r.reading_id]) ∧
    count_by_device (save st r) r.device_id =
      count_by_device st r.device_id + 1 ∧
    (∀ d, d ≠ r.device_id →
      dictGet (save st r).device_readings d =
        dictGet st.device_readings d) ∧
    (∀ rid, rid ≠ r.reading_id →
      dictGet (save st r).readings rid = dictGet st.readings rid) := by
  refine ⟨?_, ?_, ?_, ?_, ?_⟩
  · simp only [find_by_id, find_by_idS, save, saveS]
    exact dictGet_dictInsert_self _ _ _
  · simp only [save, saveS]
    exact dictGet_dictInsert_self _ _ _
  · unfold count_by_device count_by_deviceS
    cases h : dictGet st.device_readings r.device_id <;>
      simp [save, saveS, h, dictGet_dictInsert_self]
  · intro d hd
    simp only [save, saveS]
    exact dictGet_dictInsert_ne _ _ _ _ hd
  · intro rid hrid
    simp only [save, saveS]
    exact dictGet_dictInsert_ne _ _ _ _ hrid

/-- Witness for C6: saving rEx2 again on the example store leaves the other
device's index and another reading id's map entry unchanged. -/
theorem save_effects_witness :
    find_by_id (save stEx rEx2) rEx2.reading_id = some rEx2 ∧
    dictGet (save stEx rEx2).device_readings "DEV-1" =
      dictGet stEx.device_readings "DEV-1" ∧
    dictGet (save stEx rEx2).readings "R1" = dictGet stEx.readings "R1" :=
  ⟨(save_effects stEx rEx2).1,
   (save_effects stEx rEx2).2.2.2.1 "DEV-1" (by decide),
   (save_effects stEx rEx2).2.2.2.2 "R1" (by decide)⟩

/- ------------------------------------------------------------------ -/
/- The sort model: permutation, sortedness, and stability.            -/
/- ------------------------------------------------------------------ -/

theorem mem_insertByTsDesc (x a : VitalReading) (l : List VitalReading) :
    a ∈ insertByTsDesc x l ↔ a = x ∨ a ∈ l := by
  induction l with
  | nil => simp [insertByTsDesc]
  | cons y ys ih =>
      by_cases hc : y.timestamp < x.timestamp
      · rw [insertByTsDesc, if_pos hc]
        simp only [List.mem_cons]
      · rw [insertByTsDesc, if_neg hc]
        simp only [List.mem_cons, ih]
        tauto

theorem insertByTsDesc_perm (x : VitalReading) (l : List VitalReading) :
    (insertByTsDesc x l).Perm (x :: l) := by
  induction l with
  | nil => exact List.Perm.refl _
  | cons y ys ih =>
      by_cases hc : y.timestamp < x.timestamp
      · rw [insertByTsDesc, if_pos hc]
      · rw [insertByTsDesc, if_neg hc]
        exact (ih.cons y).trans (List.Perm.swap x y ys)

theorem foldl_insertByTsDesc_perm (l : List VitalReading) :
    ∀ acc : List VitalReading,
      (l.foldl (fun a x => insertByTsDesc x a) acc).Perm (acc ++ l) := by
  induction l with
  | nil => intro acc; simp
  | cons x xs ih =>
      intro acc
      have h1 : (xs.foldl (fun a x => insertByTsDesc x a)
          (insertByTsDesc x acc)).Perm (insertByTsDesc x acc ++ xs) := ih _
      have h2 : (insertByTsDesc x acc ++ xs).Perm ((x :: acc) ++ xs) :=
        (insertByTsDesc_perm x acc).append_right xs
      have h3 : ((x :: acc) ++ xs).Perm (acc ++ (x :: xs)) :=
        List.perm_middle.symm
      exact (h1.trans h2).trans h3

theorem pySortByTimestampDesc_perm (l : List VitalReading) :
    (pySortByTimestampDesc l).Perm l := by
  have h := foldl_insertByTsDesc_perm l []
  simpa [pySortByTimestampDesc] using h

theorem pairwise_insertByTsDesc (x : VitalReading) (l : List VitalReading)
    (h : tsSortedDesc l) : tsSortedDesc (insertByTsDesc x l) := by
  unfold tsSortedDesc at *
  induction l with
  | nil => simp [insertByTsDesc]
  | cons y ys ih =>
      rw [List.pairwise_cons] at h
      obtain ⟨hy, hys⟩ := h
      by_cases hc : y.timestamp < x.timestamp
      · rw [insertByTsDesc, if_pos hc, List.pairwise_cons]
        refine ⟨?_, List.pairwise_cons.mpr ⟨hy, hys⟩⟩
        intro z hz
        rcases List.mem_cons.mp hz with hz | hz
        · subst hz; exact le_of_lt hc
        · exact le_trans (hy z hz) (le_of_lt hc)
      · rw [insertByTsDesc, if_neg hc, List.pairwise_cons]
        refine ⟨?_, ih hys⟩
        intro z hz
        rcases (mem_insertByTsDesc x z ys).mp hz with hz | hz
        · subst hz; exact le_of_not_lt hc
        · exact hy z hz

theorem pySortByTimestampDesc_sorted (l : List VitalReading) :
    tsSortedDesc (pySortByTimestampDesc l) := by
  suffices h : ∀ acc, tsSortedDesc acc →
      tsSortedDesc (l.foldl (fun a x => insertByTsDesc x a) acc) by
    exact h [] (by unfold tsSortedDesc; exact List.Pairwise.nil)
  induction l with
  | nil => intro acc hacc; exact hacc
  | cons x xs ih =>
      intro acc hacc
      exact ih _ (pairwise_insertByTsDesc x acc hacc)

theorem mem_insertLex (x p : ℕ × VitalReading)
    (l : List (ℕ × VitalReading)) :
    p ∈ insertLex x l ↔ p = x ∨ p ∈ l := by
  induction l with
  | nil => simp [insertLex]
  | cons y ys ih =>
      by_cases hc : pairBefore x y = true
      · rw [insertLex, if_pos hc]
        simp only [List.mem_cons]
      · rw [insertLex, if_neg hc]
        simp only [List.mem_cons, ih]
        tauto

/-- The bridge between the source sort and the claim-side stable sort: when
the inserted tag exceeds every tag already present (as always holds for the
enumeration processed left to right), lexicographic insertion coincides
with the source's strict insertion by timestamp. -/
theorem insertLex_map_snd (n : ℕ) (xr : VitalReading)
    (acc : List (ℕ × VitalReading)) (h : ∀ p ∈ acc, p.1 < n) :
    (insertLex (n, xr) acc).map Prod.snd =
      insertByTsDesc xr (acc.map Prod.snd) := by
  induction acc with
  | nil => rfl
  | cons y ys ih =>
      obtain ⟨m, yr⟩ := y
      have hm : m < n := h (m, yr) (List.mem_cons_self _ _)
      have hcond : pairBefore (n, xr) (m, yr) = true ↔
          yr.timestamp < xr.timestamp := by
        simp only [pairBefore, Bool.or_eq_true, Bool.and_eq_true,
                   decide_eq_true_eq]
        omega
      by_cases hc : yr.timestamp < xr.timestamp
      · rw [insertLex, if_pos (hcond.mpr hc)]
        show xr :: yr :: List.map Prod.snd ys =
          insertByTsDesc xr (yr :: List.map Prod.snd ys)
        rw [insertByTsDesc, if_pos hc]
      · rw [insertLex, if_neg (fun hh => hc (hcond.mp hh))]
        show yr :: List.map Prod.snd (insertLex (n, xr) ys) =
          insertByTsDesc xr (yr :: List.map Prod.snd ys)
        rw [ih (fun p hp => h p (List.mem_cons_of_mem _ hp))]
        rw [insertByTsDesc, if_neg hc]

theorem foldl_insertLex_map_snd (l : List VitalReading) :
    ∀ (n : ℕ) (acc : List (ℕ × VitalReading)), (∀ p ∈ acc, p.1 < n) →
    ((List.enumFrom n l).foldl (fun a x => insertLex x a) acc).map Prod.snd =
      l.foldl (fun a x => insertByTsDesc x a) (acc.map Prod.snd) := by
  induction l with
  | nil => intro n acc h; rfl
  | cons x xs ih =>
      intro n acc h
      have hbound : ∀ p ∈ insertLex (n, x) acc, p.1 < n + 1 := by
        intro p hp
        rcases (mem_insertLex (n, x) p acc).mp hp with hp | hp
        · rw [hp]; exact Nat.lt_succ_self n
        · exact Nat.lt_succ_of_lt (h p hp)
      calc ((List.enumFrom n (x :: xs)).foldl
              (fun a x => insertLex x a) acc).map Prod.snd
          = ((List.enumFrom (n + 1) xs).foldl
              (fun a x => insertLex x a) (insertLex (n, x) acc)).map
              Prod.snd := rfl
        _ = xs.foldl (fun a x => insertByTsDesc x a)
              ((insertLex (n, x) acc).map Prod.snd) := ih (n + 1) _ hbound
        _ = xs.foldl (fun a x => insertByTsDesc x a)
              (insertByTsDesc x (acc.map Prod.snd)) := by
              rw [insertLex_map_snd n x acc h]
        _ = (x :: xs).foldl (fun a x => insertByTsDesc x a)
              (acc.map Prod.snd) := rfl

/-- The source's sort equals the claim-side stable descending sort. -/
theorem pySort_eq_stableSort (l : List VitalReading) :
    pySortByTimestampDesc l = stableSortByTsDesc l := by
  have h := foldl_insertLex_map_snd l 0 [] (by intro p hp; cases hp)
  unfold stableSortByTsDesc sortLex pySortByTimestampDesc
  exact h.symm

/- ------------------------------------------------------------------ -/
/- Claims about find_by_device and find_critical_readings.            -/
/- ------------------------------------------------------------------ -/

/-- C4: for every store state and device, find_by_device returns the
readings reachable through the device's id list, sorted by timestamp
descending with ties broken by insertion order (the stable descending
sort), truncated to at most limit elements; a device with no index entry
yields the empty sequence rather than an error. -/
theorem find_by_device_spec (st : RepoState) (d : String) (limit : ℕ) :
    find_by_device st d limit =
      (stableSortByTsDesc (deviceReadingsOf st d)).take limit ∧
    tsSortedDesc (find_by_device st d limit) ∧
    (find_by_device st d limit).length ≤ limit ∧
    (dictGet st.device_readings d = none →
      find_by_device st d limit = []) := by
  have heq : find_by_device st d limit =
      (pySortByTimestampDesc (deviceReadingsOf st d)).take limit := by
    unfold find_by_device find_by_deviceS deviceReadingsOf
    cases h : dictGet st.device_readings d
    · simp [pySortByTimestampDesc]
    · simp
  refine ⟨?_, ?_, ?_, ?_⟩
  · rw [heq, pySort_eq_stableSort]
  · rw [heq]
    exact List.Pairwise.sublist (List.take_sublist _ _)
      (pySortByTimestampDesc_sorted _)
  · rw [heq, List.length_take]
    exact min_le_left _ _
  · intro h
    rw [heq]
    unfold deviceReadingsOf
    rw [h]
    simp [pySortByTimestampDesc]

/-- Witness for C4: an unknown device on the example store yields the empty
sequence. -/
theorem find_by_device_spec_witness : find_by_device stEx "NODEV" 5 = [] :=
  (find_by_device_spec stEx "NODEV" 5).2.2.2 (by rfl)

/-- Every element of a find_by_device result is reachable through the
device's index: some listed id resolves to it in the primary map. -/
theorem mem_find_by_device (st : RepoState) (d : String) (limit : ℕ)
    (r : VitalReading) (h : r ∈ find_by_device st d limit) :
    ∃ ids rid, dictGet st.device_readings d = some ids ∧ rid ∈ ids ∧
      dictGet st.readings rid = some r := by
  unfold find_by_device find_by_deviceS at h
  cases hd : dictGet st.device_readings d with
  | none =>
      rw [hd] at h
      exact absurd h (List.not_mem_nil r)
  | some ids =>
      rw [hd] at h
      have h1 : r ∈ pySortByTimestampDesc
          (ids.filterMap fun rid => dictGet st.readings rid) :=
        List.take_subset _ _ h
      have h2 : r ∈ ids.filterMap (fun rid => dictGet st.readings rid) :=
        (pySortByTimestampDesc_perm _).mem_iff.mp h1
      obtain ⟨rid, hrid, hget⟩ := List.mem_filterMap.mp h2
      exact ⟨ids, rid, rfl, hrid, hget⟩

/-- A lookup hit is a list entry (keys in the dict model identify their
entry). -/
theorem dictGet_mem {α : Type} (l : List (String × α)) (k : String) (v : α)
    (h : dictGet l k = some v) : (k, v) ∈ l := by
  induction l with
  | nil => simp [dictGet] at h
  | cons p rest ih =>
      obtain ⟨k0, v0⟩ := p
      by_cases hk : k0 = k
      · subst hk
        rw [dictGet, if_pos rfl] at h
        rw [Option.some.injEq] at h
        subst h
        exact List.mem_cons_self _ _
      · rw [dictGet, if_neg hk] at h
        exact List.mem_cons_of_mem _ (ih h)

/-- A decidable sufficient condition for WellFormed, phrased over the
concrete entry lists. -/
theorem wellFormed_of_entries (st : RepoState)
    (h : ∀ p ∈ st.device_readings, ∀ rid ∈ p.2, ∀ q ∈ st.readings,
      q.1 = rid → q.2.device_id = p.1) : WellFormed st := by
  intro dev ids hids rid hrid r hr
  exact h (dev, ids) (dictGet_mem _ _ _ hids) rid hrid (rid, r)
    (dictGet_mem _ _ _ hr) rfl

/-- The empty store is well formed. -/
theorem wf_empty : WellFormed emptyRepo := by
  intro dev ids h
  simp [emptyRepo, dictGet] at h

/-- save preserves well-formedness whenever the saved reading's id is fresh
(listed in no device index), which holds in the program since reading ids
are freshly generated at construction. -/
theorem wf_save (st : RepoState) (r : VitalReading) (hwf : WellFormed st)
    (hfresh : ∀ dev ids, dictGet st.device_readings dev = some ids →
      r.reading_id ∉ ids) : WellFormed (save st r) := by
  intro dev ids hids rid hrid r' hr'
  have hread : (save st r).readings = dictInsert st.readings r.reading_id r :=
    rfl
  have hidx : (save st r).device_readings =
      dictInsert st.device_readings r.device_id
        ((dictGet st.device_readings r.device_id).getD [] ++
         [r.reading_id]) := rfl
  by_cases hdev : dev = r.device_id
  · subst hdev
    rw [hidx, dictGet_dictInsert_self, Option.some.injEq] at hids
    subst hids
    rcases List.mem_append.mp hrid with hin | hin
    · -- rid was already listed for this device
      have hsome : dictGet st.device_readings r.device_id =
          some ((dictGet st.device_readings r.device_id).getD []) := by
        cases hold : dictGet st.device_readings r.device_id with
        | none =>
            rw [hold] at hin
            exact absurd hin (List.not_mem_nil rid)
        | some l => rfl
      have hne : rid ≠ r.reading_id := by
        intro hcontra
        subst hcontra
        exact hfresh r.device_id _ hsome hin
      rw [hread, dictGet_dictInsert_ne _ _ _ _ hne] at hr'
      exact hwf r.device_id _ hsome rid hin r' hr'
    · -- rid is the newly appended id
      have hrid_eq : rid = r.reading_id := List.mem_singleton.mp hin
      subst hrid_eq
      rw [hread, dictGet_dictInsert_self, Option.some.injEq] at hr'
      rw [← hr']
  · rw [hidx, dictGet_dictInsert_ne _ _ _ _ hdev] at hids
    have hne : rid ≠ r.reading_id := by
      intro hcontra
      subst hcontra
      exact hfresh dev ids hids hrid
    rw [hread, dictGet_dictInsert_ne _ _ _ _ hne] at hr'
    exact hwf dev ids hids rid hrid r' hr'

/-- C7: on every well-formed store state (the invariant of every state the
program reaches, by wf_empty and wf_save), find_critical_readings with a
device given (a non-empty id — the Python guard treats the empty string as
no device) returns only critical readings belonging to that device, sorted
by timestamp descending; without a device it returns exactly the stored
critical readings across all devices, sorted by timestamp descending. -/
theorem critical_readings_spec (st : RepoState) (d : String)
    (hwf : WellFormed st) (hd : d ≠ "") :
    (∀ r ∈ find_critical_readings st (some d),
      r.is_critical = true ∧ r.device_id = d) ∧
    tsSortedDesc (find_critical_readings st (some d)) ∧
    (find_critical_readings st none).Perm
      ((dictValues st.readings).filter VitalReading.is_critical) ∧
    tsSortedDesc (find_critical_readings st none) := by
  have hdev : find_critical_readings st (some d) =
      pySortByTimestampDesc
        ((find_by_device st d 1000).filter VitalReading.is_critical) := by
    simp only [find_critical_readings, find_critical_readingsS]
    rw [if_neg hd, find_by_deviceS_eq]
  have hnone : find_critical_readings st none =
      pySortByTimestampDesc
        ((dictValues st.readings).filter VitalReading.is_critical) := rfl
  refine ⟨?_, ?_, ?_, ?_⟩
  · intro r hr
    rw [hdev] at hr
    have hr1 : r ∈ (find_by_device st d 1000).filter
        VitalReading.is_critical :=
      (pySortByTimestampDesc_perm _).mem_iff.mp hr
    rw [List.mem_filter] at hr1
    obtain ⟨hrdev, hcrit⟩ := hr1
    refine ⟨hcrit, ?_⟩
    obtain ⟨ids, rid, hids, hrid, hget⟩ :=
      mem_find_by_device st d 1000 r hrdev
    exact hwf d ids hids rid hrid r hget
  · rw [hdev]
    exact pySortByTimestampDesc_sorted _
  · rw [hnone]
    exact pySortByTimestampDesc_perm _
  · rw [hnone]
    exact pySortByTimestampDesc_sorted _

/-- Witness for C7 on the example store (which is well formed) and device
DEV-1. -/
theorem critical_readings_spec_witness :
    (∀ r ∈ find_critical_readings stEx (some "DEV-1"),
      r.is_critical = true ∧ r.device_id = "DEV-1") ∧
    tsSortedDesc (find_critical_readings stEx (some "DEV-1")) ∧
    (find_critical_readings stEx none).Perm
      ((dictValues stEx.readings).filter VitalReading.is_critical) ∧
    tsSortedDesc (find_critical_readings stEx none) :=
  critical_readings_spec stEx "DEV-1"
    (wellFormed_of_entries stEx (by decide)) (by decide)

end SmartLife
